import Mathlib

/-!
Shallow embedding of `firefox_bookmarks_validator.py`.

The program reads Firefox bookmark records from a profile's
`places.sqlite` database (or a compressed JSON backup), probes each
bookmarked URL over HTTP, and offers guarded transactional deletion of
dead entries.  External effects (filesystem, SQLite, the network, and
process listing) are modelled by explicit environment records whose
fields say which side-effecting step succeeds, fails, or raises; the
pure control flow of each Python function is translated directly.
-/

/-- A bookmark tuple `(title, url, bookmark_id, place_id)` exactly as both
extractors produce it (line 75 and line 122 of the source). -/
abbrev BookmarkTuple := String × String × Option Int × Option Int

/-- A row of the `moz_bookmarks` table: columns `id`, `type`, `fk`, `title`
(title may be SQL NULL). -/
structure MozBookmark where
  id : Int
  type : Int
  fk : Int
  title : Option String
deriving DecidableEq, Repr

/-- A row of the `moz_places` table: columns `id`, `url`. -/
structure MozPlace where
  id : Int
  url : String
deriving DecidableEq, Repr

/-- The relational store: the two tables the program touches. -/
structure PlacesDB where
  moz_bookmarks : List MozBookmark
  moz_places : List MozPlace
deriving DecidableEq, Repr

/-- Python `v or d` for an optional string `v`: both `None` and the empty
string are falsy and give the default. -/
def pyOr (v : Option String) (d : String) : String :=
  match v with
  | none => d
  | some s => if s = "" then d else s

/-- Python `s or d` for a plain string: the empty string is falsy. -/
def pyOrS (s d : String) : String :=
  if s = "" then d else s

/-- The SQL filter `p.url LIKE 'http%'`.  SQLite's LIKE is
ASCII-case-insensitive, so this tests whether the first four characters
are `http` up to ASCII case (stated over the character list so it
evaluates by kernel reduction). -/
def likeHttp (u : String) : Bool :=
  ((u.data.take 4).map Char.toLower) == "http".data

/-- Spec-level predicate, formalising the spec's words that an extracted
URL "begins with an HTTP(S) scheme": the URL starts with `http://` or
`https://` (scheme compared ASCII-case-insensitively).  Used only to
compare the spec's wording with the source's `LIKE 'http%'` filter. -/
def urlHasHttpScheme (u : String) : Bool :=
  ((u.data.take 7).map Char.toLower) == "http://".data ||
  ((u.data.take 8).map Char.toLower) == "https://".data

/-- The record built from one joined row (source line 75): the title
defaults to `"Untitled"` when NULL or empty, and both identifiers are
populated. -/
def mkRecord (b : MozBookmark) (p : MozPlace) : BookmarkTuple :=
  (pyOr b.title "Untitled", p.url, some b.id, some p.id)

/-- The SQL query of `extract_bookmarks_from_places_db` (source lines
67-75): join `moz_bookmarks b` with `moz_places p` on `b.fk = p.id`,
keep rows with `b.type = 1 AND p.url LIKE 'http%'`, and map each row
through the tuple builder. -/
def runQuery (db : PlacesDB) : List BookmarkTuple :=
  db.moz_bookmarks.flatMap (fun b =>
    (db.moz_places.filter (fun p => b.fk == p.id)).filterMap (fun p =>
      if b.type == 1 && likeHttp p.url then some (mkRecord b p) else none))

/-- The join rows `(b, p)` with `b.fk = p.id`, before the WHERE filter. -/
def joinPairs (db : PlacesDB) : List (MozBookmark × MozPlace) :=
  db.moz_bookmarks.flatMap (fun b =>
    (db.moz_places.filter (fun p => b.fk == p.id)).map (fun p => (b, p)))

/-- Environment for `extract_bookmarks_from_places_db`: whether
`places.sqlite` exists, and whether each side-effecting step
(`shutil.copy2`, `sqlite3.connect`, `execute`/`fetchall`) succeeds or
raises. -/
structure ExtractEnv where
  placesExists : Bool
  copyOk : Bool
  connectOk : Bool
  queryOk : Bool
deriving DecidableEq, Repr

/-- Embedding of `extract_bookmarks_from_places_db` (source lines 50-83).  Returns the
extracted tuples together with a flag telling whether the temporary
working copy `temp_places.sqlite` is still on disk after the call.  The
`try` block copies the live file to the temp path, connects, runs the
query, closes, and removes the temp file; `except Exception` prints a
diagnostic and returns `[]` — it does not remove the temp file, so a
failure after the copy leaves the copy behind. -/
def extract_bookmarks_from_places_db (env : ExtractEnv) (db : PlacesDB) :
    List BookmarkTuple × Bool :=
  if !env.placesExists then ([], false)
  else if !env.copyOk then ([], false)
  else if !env.connectOk then ([], true)
  else if !env.queryOk then ([], true)
  else (runQuery db, false)

/-- The two kinds of Python exception the handlers of `validate_url`
distinguish: `requests.exceptions.RequestException` and every other
`Exception`. -/
inductive PyExc
  | requestException
  | otherException
deriving DecidableEq, Repr

/-- The two network probes `validate_url` can issue. -/
inductive Probe
  | head
  | get
deriving DecidableEq, BEq, Repr

/-- Network environment for one `validate_url` call: the outcome of the
HEAD request and of the (possible) GET request, each either a status
code or a raised exception. -/
structure NetEnv where
  headResp : Except PyExc Nat
  getResp : Except PyExc Nat
deriving Repr

/-- Python `not url` for an optional string argument. -/
def urlFalsy (u : Option String) : Bool :=
  match u with
  | none => true
  | some s => s == ""

/-- The `try` block of `validate_url` (source lines 141-153), without its
handlers: issue the HEAD request; if its status is `>= 400`, issue a GET
request and use that response.  `.error` means an exception escapes the
block; the trace records the probes issued, in order. -/
def validate_url_try (env : NetEnv) : Except PyExc Nat × List Probe :=
  match env.headResp with
  | .error e => (.error e, [Probe.head])
  | .ok s =>
    if 400 ≤ s then
      match env.getResp with
      | .error e => (.error e, [Probe.head, Probe.get])
      | .ok g => (.ok g, [Probe.head, Probe.get])
    else (.ok s, [Probe.head])

/-- Embedding of `validate_url` (source lines 135-159): an empty or `None` URL returns
`None` with no network call; otherwise the `try` block runs, and both
handlers (`except RequestException`, `except Exception`) turn any
exception into the return value `None`.  Result: the returned status
(or `None`) and the trace of probes issued. -/
def validate_url (env : NetEnv) (url : Option String) : Option Nat × List Probe :=
  if urlFalsy url then (none, [])
  else
    match validate_url_try env with
    | (.ok s, t) => (some s, t)
    | (.error PyExc.requestException, t) => (none, t)
    | (.error PyExc.otherException, t) => (none, t)

/-- The host platform, as reported by `platform.system()`. -/
inductive SystemKind
  | windows
  | darwin
  | linux
deriving DecidableEq, Repr

/-- Environment for `is_firefox_running`: the platform and the outcome of
the process-listing subprocess (its decoded output, or a raised
exception). -/
structure ProcEnv where
  system : SystemKind
  listing : Except PyExc String
deriving Repr

/-- Whether a list starts with the given pattern. -/
def listStartsWith [BEq α] : List α → List α → Bool
  | _, [] => true
  | [], _ :: _ => false
  | a :: as, b :: bs => a == b && listStartsWith as bs

/-- Whether the pattern occurs as a contiguous run of the list. -/
def hasSubList [BEq α] (pat : List α) : List α → Bool
  | [] => pat.isEmpty
  | a :: rest => listStartsWith (a :: rest) pat || hasSubList pat rest

/-- Python's `s.lower()`, over the string's character list (the needles
searched for are ASCII). -/
def pyLower (s : String) : String := String.mk (s.data.map Char.toLower)

/-- Python's substring test `pat in s`. -/
def pyIn (pat s : String) : Bool := hasSubList pat.data s.data

/-- Embedding of `is_firefox_running` (source lines 214-232): search the lowercased
process listing for the platform-specific needle; if the listing probe
itself raises, `except Exception` returns `True` ("assume it's running
to be safe"). -/
def is_firefox_running (env : ProcEnv) : Bool :=
  match env.listing with
  | .error _ => true
  | .ok out =>
    match env.system with
    | .windows => pyIn "firefox.exe" (pyLower out)
    | .darwin => pyIn "firefox" (pyLower out)
    | .linux => pyIn "firefox" (pyLower out)

/-- Environment for `remove_bookmarks`: the process-probe environment,
whether `places.sqlite` exists, and whether each side-effecting step
(backup copy, connect, BEGIN, COMMIT) succeeds; `rowRaises i` says
whether the DELETE statement for the i-th request pair raises. -/
structure DeleteEnv where
  proc : ProcEnv
  placesExists : Bool
  backupOk : Bool
  connectOk : Bool
  beginOk : Bool
  commitOk : Bool
  rowRaises : Nat → Bool

/-- The deletion loop of `remove_bookmarks` (source lines 191-202),
starting at pair index `i` with current table `rows` and counter
`count`: a pair with `bookmark_id = None` is skipped with a warning; a
DELETE that raises is logged and skipped; otherwise every row of
`moz_bookmarks` whose `id` matches is deleted and the counter is
incremented. -/
def deleteLoop (raises : Nat → Bool) (i : Nat) (rows : List MozBookmark)
    (count : Nat) : List (Option Int × Option Int) → List MozBookmark × Nat
  | [] => (rows, count)
  | (bid, _) :: rest =>
    match bid with
    | none => deleteLoop raises (i + 1) rows count rest
    | some b =>
      if raises i then deleteLoop raises (i + 1) rows count rest
      else deleteLoop raises (i + 1) (rows.filter (fun r => r.id != b)) (count + 1) rest

/-- Embedding of `remove_bookmarks` (source lines 161-212).  Preconditions, each
returning `False` when violated: non-empty request list, store file
present, Firefox not running.  Then, inside `try`: back up the file,
connect to the live database, BEGIN, run the deletion loop, COMMIT; any
exception there is caught and returns `False` with the store unchanged
(an uncommitted transaction is rolled back).  Result: the returned
Boolean, the database state after the call, and the reported deletion
count (`some n` iff the success message "Successfully deleted n
bookmarks" is printed). -/
def remove_bookmarks (env : DeleteEnv) (db : PlacesDB)
    (bookmark_ids : List (Option Int × Option Int)) :
    Bool × PlacesDB × Option Nat :=
  if bookmark_ids.isEmpty then (false, db, none)
  else if !env.placesExists then (false, db, none)
  else if is_firefox_running env.proc then (false, db, none)
  else if !env.backupOk then (false, db, none)
  else if !env.connectOk then (false, db, none)
  else if !env.beginOk then (false, db, none)
  else
    let res := deleteLoop env.rowRaises 0 db.moz_bookmarks 0 bookmark_ids
    if env.commitOk then (true, { db with moz_bookmarks := res.1 }, some res.2)
    else (false, db, none)

/-- "The transaction commits": every precondition passes, the backup,
connect and BEGIN steps succeed, and COMMIT succeeds.  Note this does
not depend on the per-row outcomes `rowRaises`. -/
def transactionCommits (env : DeleteEnv)
    (bookmark_ids : List (Option Int × Option Int)) : Bool :=
  !bookmark_ids.isEmpty && env.placesExists && !is_firefox_running env.proc &&
    env.backupOk && env.connectOk && env.beginOk && env.commitOk

/-- What happens while one bookmark record is handled by the validation
loop of `main`: either its probe runs through `validate_url` in the
given network environment, or an unexpected exception escapes while the
record is being processed (the case the per-record `except` at source
line 324 defends against). -/
inductive RecordEnv
  | net (env : NetEnv)
  | raisesDuring (e : PyExc)

/-- The accumulator state of the validation loop of `main` (source lines
286-287): the list of invalid bookmarks found so far, in discovery
order, and the number of records processed. -/
structure LoopState where
  invalid_bookmarks : List (String × String × Option Int × Option Int × Option Nat)
  processed_count : Nat
deriving DecidableEq, Repr

/-- One iteration of the validation loop of `main` (source lines
290-326): default the title, skip the record outright when its URL is
empty (`continue` at line 306, before the counter is incremented),
otherwise probe it; status 200 is OK, anything else is appended to
`invalid_bookmarks`; either way `processed_count` is incremented.  An
exception while the record is handled is caught at line 324 and the
loop continues with the next record, state unchanged. -/
def processOne (st : LoopState) (item : BookmarkTuple × RecordEnv) : LoopState :=
  let (t, url, bid, pid) := item.1
  let title := pyOrS t "Untitled"
  if url == "" then st
  else
    match item.2 with
    | .raisesDuring _ => st
    | .net env =>
      let status_code := (validate_url env (some url)).1
      if status_code == some 200 then
        { st with processed_count := st.processed_count + 1 }
      else
        { invalid_bookmarks := st.invalid_bookmarks ++ [(title, url, bid, pid, status_code)],
          processed_count := st.processed_count + 1 }

/-- The whole validation loop of `main`: fold `processOne` over the
records (each paired with its per-record environment), starting from
the empty accumulator. -/
def validateBookmarks (items : List (BookmarkTuple × RecordEnv)) : LoopState :=
  items.foldl processOne ⟨[], 0⟩

/-- The invalid-list entry a single record contributes (`none` when it
contributes nothing): nothing for an empty URL, nothing when the record
raises, nothing on status 200, and the full tuple with its status
otherwise. -/
def invalidEntryOf (item : BookmarkTuple × RecordEnv) :
    Option (String × String × Option Int × Option Int × Option Nat) :=
  let (t, url, bid, pid) := item.1
  if url == "" then none
  else
    match item.2 with
    | .raisesDuring _ => none
    | .net env =>
      let status_code := (validate_url env (some url)).1
      if status_code == some 200 then none
      else some (pyOrS t "Untitled", url, bid, pid, status_code)

/-- Whether a single record is counted by `processed_count`: its URL is
non-empty and no exception escaped while it was handled. -/
def countsProcessed (item : BookmarkTuple × RecordEnv) : Bool :=
  !(item.1.2.1 == "") &&
    match item.2 with
    | .raisesDuring _ => false
    | .net _ => true

/-! Concrete stores and environments used to instantiate the theorems. -/

/-- A bookmark row of type 1 pointing at URL record 10. -/
def b0 : MozBookmark := ⟨1, 1, 10, some "t"⟩

/-- A URL row with an ordinary `http://` URL. -/
def p0 : MozPlace := ⟨10, "http://a"⟩

/-- A one-bookmark store with an ordinary HTTP URL. -/
def dbW : PlacesDB := ⟨[b0], [p0]⟩

/-- A one-bookmark store whose URL starts with the characters `http`
but whose scheme is `httpfoo`, not HTTP(S). -/
def dbScheme : PlacesDB := ⟨[⟨1, 1, 10, some "t"⟩], [⟨10, "httpfoo://x"⟩]⟩

/-- A two-bookmark store used to exercise deletion. -/
def dbDel : PlacesDB :=
  ⟨[⟨1, 1, 10, some "a"⟩, ⟨2, 1, 11, some "b"⟩], [⟨10, "http://a"⟩, ⟨11, "http://b"⟩]⟩

/-- An extraction environment in which every step succeeds. -/
def extractEnvOK : ExtractEnv := ⟨true, true, true, true⟩

/-- An extraction environment in which the SQL query raises (for example
on a corrupt database) after the working copy was created. -/
def extractEnvQueryFails : ExtractEnv := ⟨true, true, true, false⟩

/-- A process environment on Linux whose listing succeeds and contains
no firefox process. -/
def procUp : ProcEnv := ⟨.linux, .ok ""⟩

/-- A process environment whose listing probe itself raises. -/
def procErr : ProcEnv := ⟨.linux, .error PyExc.otherException⟩

/-- A deletion environment in which every step succeeds and Firefox is
not running. -/
def delEnvOK : DeleteEnv := ⟨procUp, true, true, true, true, true, fun _ => false⟩

/-- A deletion environment identical to `delEnvOK` except that the
process-listing probe raises. -/
def delEnvProbeErr : DeleteEnv := ⟨procErr, true, true, true, true, true, fun _ => false⟩

/-- A network environment: HEAD answers 404, GET answers 200. -/
def netHead404Get200 : NetEnv := ⟨.ok 404, .ok 200⟩

/-- A network environment whose HEAD probe raises a request exception. -/
def netHeadRaises : NetEnv := ⟨.error PyExc.requestException, .ok 0⟩

/-! Theorems.  First some shared lemmas about the embedded functions. -/

/-- Shape lemma: `remove_bookmarks` has exactly two observable outcomes: either the
transaction does not commit and the call returns `False` with the store
unchanged and no count reported, or it commits and the call returns
`True` with the deletion loop applied to `moz_bookmarks` and its count
reported. -/
theorem remove_bookmarks_spec (env : DeleteEnv) (db : PlacesDB)
    (reqs : List (Option Int × Option Int)) :
    (transactionCommits env reqs = false ∧
      remove_bookmarks env db reqs = (false, db, none)) ∨
    (transactionCommits env reqs = true ∧
      remove_bookmarks env db reqs =
        (true,
         { db with moz_bookmarks := (deleteLoop env.rowRaises 0 db.moz_bookmarks 0 reqs).1 },
         some (deleteLoop env.rowRaises 0 db.moz_bookmarks 0 reqs).2)) := by
  unfold remove_bookmarks transactionCommits
  cases h1 : reqs.isEmpty <;> cases h2 : env.placesExists <;>
    cases h3 : is_firefox_running env.proc <;> cases h4 : env.backupOk <;>
    cases h5 : env.connectOk <;> cases h6 : env.beginOk <;>
    cases h7 : env.commitOk <;> simp_all

/-- C1: for every environment, store and request list, `remove_bookmarks`
returns `True` exactly when the single transaction commits — a
condition independent of the per-row deletion outcomes — and `False` on
every precondition failure (empty request set, missing store file,
Firefox running) and whenever the backup, connect, BEGIN or COMMIT step
fails. -/
theorem remove_bookmarks_true_iff_commit (env : DeleteEnv) (db : PlacesDB)
    (reqs : List (Option Int × Option Int)) :
    ((remove_bookmarks env db reqs).1 = transactionCommits env reqs) ∧
    (∀ f, (remove_bookmarks { env with rowRaises := f } db reqs).1 =
      (remove_bookmarks env db reqs).1) := by
  constructor
  · rcases remove_bookmarks_spec env db reqs with ⟨hc, he⟩ | ⟨hc, he⟩ <;>
      rw [he, hc]
  · intro f
    have hcomm : transactionCommits { env with rowRaises := f } reqs =
        transactionCommits env reqs := rfl
    rcases remove_bookmarks_spec { env with rowRaises := f } db reqs with
      ⟨hc₁, he₁⟩ | ⟨hc₁, he₁⟩ <;>
      rcases remove_bookmarks_spec env db reqs with ⟨hc₂, he₂⟩ | ⟨hc₂, he₂⟩ <;>
      rw [he₁, he₂] <;> rw [hcomm, hc₂] at hc₁ <;> simp_all

/-- C2: when the process-listing probe raises, `is_firefox_running`
reports `True`, and `remove_bookmarks` therefore returns `False` and
leaves the store unchanged, reporting no deletion count — it fails
closed. -/
theorem probe_error_fail_closed (env : DeleteEnv) (db : PlacesDB)
    (reqs : List (Option Int × Option Int)) (e : PyExc)
    (h : env.proc.listing = .error e) :
    is_firefox_running env.proc = true ∧
    remove_bookmarks env db reqs = (false, db, none) := by
  have hrun : is_firefox_running env.proc = true := by
    unfold is_firefox_running
    rw [h]
  refine ⟨hrun, ?_⟩
  rcases remove_bookmarks_spec env db reqs with ⟨_, he⟩ | ⟨hc, _⟩
  · exact he
  · simp [transactionCommits, hrun] at hc

/-- Witness for C2: with a Linux environment whose `ps -A` call raises,
the concrete deletion call on a two-row store refuses and changes
nothing. -/
theorem probe_error_fail_closed_witness :
    is_firefox_running delEnvProbeErr.proc = true ∧
    remove_bookmarks delEnvProbeErr dbDel [(some 1, some 10)] = (false, dbDel, none) :=
  probe_error_fail_closed delEnvProbeErr dbDel [(some 1, some 10)]
    PyExc.otherException rfl

/-- One loop iteration appends exactly the entry `invalidEntryOf` assigns
to the record (possibly nothing). -/
theorem processOne_invalid (st : LoopState) (item : BookmarkTuple × RecordEnv) :
    (processOne st item).invalid_bookmarks =
      st.invalid_bookmarks ++ (invalidEntryOf item).toList := by
  rcases item with ⟨⟨t, url, bid, pid⟩, renv⟩
  unfold processOne invalidEntryOf
  cases hu : url == "" <;> cases renv <;> simp [hu] <;> split <;> simp_all

/-- One loop iteration increments `processed_count` exactly when
`countsProcessed` holds of the record. -/
theorem processOne_count (st : LoopState) (item : BookmarkTuple × RecordEnv) :
    (processOne st item).processed_count =
      st.processed_count + (if countsProcessed item then 1 else 0) := by
  rcases item with ⟨⟨t, url, bid, pid⟩, renv⟩
  unfold processOne countsProcessed
  cases hu : url == "" <;> cases renv <;> simp [hu] <;> split <;> rfl

/-- The loop, started from any state, appends the per-record invalid
entries in input order and adds the number of counted records. -/
theorem foldl_processOne (items : List (BookmarkTuple × RecordEnv)) :
    ∀ st : LoopState, items.foldl processOne st =
      ⟨st.invalid_bookmarks ++ items.filterMap invalidEntryOf,
       st.processed_count + items.countP countsProcessed⟩ := by
  induction items with
  | nil => intro st; simp
  | cons a l ih =>
    intro st
    rw [List.foldl_cons, ih]
    rw [processOne_invalid st a, processOne_count st a,
      List.filterMap_cons, List.countP_cons]
    cases hf : invalidEntryOf a <;>
      simp [hf, LoopState.mk.injEq, List.append_assoc] <;> omega

/-- A record during whose handling an exception escapes contributes no
invalid entry and is not counted. -/
theorem raisesDuring_contributes_nothing (t : BookmarkTuple) (e : PyExc) :
    invalidEntryOf (t, RecordEnv.raisesDuring e) = none ∧
    countsProcessed (t, RecordEnv.raisesDuring e) = false := by
  rcases t with ⟨a, url, c, d⟩
  unfold invalidEntryOf countsProcessed
  cases hu : url == "" <;> simp [hu]

/-- A record with an empty URL contributes no invalid entry and is not
counted, whatever its probe environment. -/
theorem emptyUrl_contributes_nothing (t : String) (bid pid : Option Int)
    (o : RecordEnv) :
    invalidEntryOf ((t, "", bid, pid), o) = none ∧
    countsProcessed ((t, "", bid, pid), o) = false := by
  unfold invalidEntryOf countsProcessed
  cases o <;> simp

/-- C7: the validation loop's accumulated invalid list is exactly the
in-input-order `filterMap` of a per-record classifier — so input order
is preserved — and a record during whose handling an exception escapes
is simply dropped: the loop's whole result on any surrounding records
is unchanged, so every subsequent record is still processed. -/
theorem validateBookmarks_order_and_no_abort :
    (∀ items, (validateBookmarks items).invalid_bookmarks =
      items.filterMap invalidEntryOf) ∧
    (∀ (xs ys : List (BookmarkTuple × RecordEnv)) (t : BookmarkTuple) (e : PyExc),
      validateBookmarks (xs ++ (t, RecordEnv.raisesDuring e) :: ys) =
        validateBookmarks (xs ++ ys)) := by
  constructor
  · intro items
    rw [validateBookmarks, foldl_processOne items ⟨[], 0⟩]
    simp
  · intro xs ys t e
    have h := raisesDuring_contributes_nothing t e
    rw [validateBookmarks, validateBookmarks,
      foldl_processOne (xs ++ (t, RecordEnv.raisesDuring e) :: ys) ⟨[], 0⟩,
      foldl_processOne (xs ++ ys) ⟨[], 0⟩]
    simp [List.filterMap_append, List.countP_append, h.1, h.2,
      List.filterMap_cons, List.countP_cons]

/-- C8 counterexample: a single record with an empty URL leaves the final
`processed_count` at `0` — the code `continue`s before the counter is
incremented, so the record does not count as processed, contrary to the
claim. -/
theorem emptyUrl_not_counted_cex :
    validateBookmarks [(("t", "", none, none), RecordEnv.net netHead404Get200)] =
      ⟨[], 0⟩ := rfl

/-- C8 amended: a record with an empty URL is skipped outright: no probe
is issued (the result does not depend on the record's probe
environment), it is not added to the invalid list, and it does not
count toward `processed_count` — the loop's result on the surrounding
records is exactly as if the record were absent. -/
theorem emptyUrl_skipped_entirely (xs ys : List (BookmarkTuple × RecordEnv))
    (t : String) (bid pid : Option Int) (o : RecordEnv) :
    validateBookmarks (xs ++ ((t, "", bid, pid), o) :: ys) =
      validateBookmarks (xs ++ ys) := by
  have h := emptyUrl_contributes_nothing t bid pid o
  rw [validateBookmarks, validateBookmarks,
    foldl_processOne (xs ++ ((t, "", bid, pid), o) :: ys) ⟨[], 0⟩,
    foldl_processOne (xs ++ ys) ⟨[], 0⟩]
  simp [List.filterMap_append, List.countP_append, h.1, h.2,
    List.filterMap_cons, List.countP_cons]

/-- The value of `validate_url` when the URL is non-empty and the HEAD
probe reports a status. -/
theorem validate_url_eq_of_head_ok (env : NetEnv) (url : Option String) (s : Nat)
    (hu : urlFalsy url = false) (hh : env.headResp = .ok s) :
    validate_url env url =
      if 400 ≤ s then
        ((match env.getResp with | .ok g => some g | .error _ => none),
         [Probe.head, Probe.get])
      else (some s, [Probe.head]) := by
  unfold validate_url validate_url_try
  rw [hu, hh]
  by_cases h4 : 400 ≤ s
  · rcases hg : env.getResp with e | g
    · cases e <;> simp [h4]
    · simp [h4]
  · simp [h4]

/-- C5: for every non-empty URL whose HEAD probe reports a status, the
HEAD probe is issued first; a GET probe is issued (exactly once) if and
only if the HEAD status is `>= 400`; when it is issued and reports a
status, that GET status is returned, and otherwise the HEAD status is
returned. -/
theorem validate_url_head_then_get (env : NetEnv) (url : Option String) (s : Nat)
    (hu : urlFalsy url = false) (hh : env.headResp = .ok s) :
    ((validate_url env url).2.head? = some Probe.head) ∧
    ((validate_url env url).2.count Probe.get = if 400 ≤ s then 1 else 0) ∧
    (∀ g, 400 ≤ s → env.getResp = .ok g → (validate_url env url).1 = some g) ∧
    (s < 400 → (validate_url env url).1 = some s) := by
  rw [validate_url_eq_of_head_ok env url s hu hh]
  by_cases h4 : 400 ≤ s
  · rw [if_pos h4]
    refine ⟨rfl, by rw [if_pos h4]; rfl, ?_, ?_⟩
    · intro g _ hg
      simp [hg]
    · intro hlt
      exact absurd h4 (by omega)
  · rw [if_neg h4]
    refine ⟨rfl, by rw [if_neg h4]; rfl, ?_, fun _ => rfl⟩
    intro g h4' _
    exact absurd h4' h4

/-- Witness for C5: HEAD answers 404 and GET answers 200 on a concrete
URL, so the GET probe is issued and its status 200 is returned. -/
theorem validate_url_head_then_get_witness :
    ((validate_url netHead404Get200 (some "http://a")).2.head? = some Probe.head) ∧
    ((validate_url netHead404Get200 (some "http://a")).1 = some 200) := by
  have h := validate_url_head_then_get netHead404Get200 (some "http://a") 404
    (by decide) rfl
  exact ⟨h.1, h.2.2.1 200 (by omega) rfl⟩

/-- C6: `validate_url` never lets an exception reach its caller — its
result type is a plain optional status, and concretely: if the HEAD
probe raises, the result is `None`; if the GET probe raises after a
HEAD status `>= 400`, the result is `None`; any exception escaping the
probing block yields `None`; and a `None` or empty URL yields `None`
with no probe issued at all. -/
theorem validate_url_no_exception_escape (env : NetEnv) (url : Option String) :
    (∀ e, env.headResp = .error e → (validate_url env url).1 = none) ∧
    (∀ s e, env.headResp = .ok s → 400 ≤ s → env.getResp = .error e →
      (validate_url env url).1 = none) ∧
    (∀ e, (validate_url_try env).1 = .error e → (validate_url env url).1 = none) ∧
    (urlFalsy url = true → validate_url env url = (none, [])) := by
  refine ⟨?_, ?_, ?_, ?_⟩
  · intro e he
    unfold validate_url validate_url_try
    rw [he]
    cases hu : urlFalsy url <;> cases e <;> simp
  · intro s e hs h4 hg
    unfold validate_url validate_url_try
    rw [hs, hg]
    cases hu : urlFalsy url <;> cases e <;> simp [h4]
  · intro e he
    unfold validate_url
    cases hu : urlFalsy url
    · rcases hm : validate_url_try env with ⟨r, t⟩
      rw [hm] at he
      simp at he
      rw [he]
      cases e <;> simp
    · simp
  · intro hu
    unfold validate_url
    rw [hu]
    simp

/-- Witness for C6: a raising HEAD probe on a concrete URL yields `None`,
and an empty URL yields `None` with an empty probe trace. -/
theorem validate_url_no_exception_escape_witness :
    ((validate_url netHeadRaises (some "http://a")).1 = none) ∧
    (validate_url netHeadRaises (some "") = (none, [])) :=
  ⟨(validate_url_no_exception_escape netHeadRaises (some "http://a")).1
      PyExc.requestException rfl,
   (validate_url_no_exception_escape netHeadRaises (some "")).2.2.2 rfl⟩

/-- C3, evaluation at the failing input: with `places.sqlite` present and
the copy succeeding, a failing SQL query makes the function return `[]`
while the temporary working copy `temp_places.sqlite` is still on disk:
the `except` handler has no cleanup, so the copy is not removed on this
exit path. -/
theorem extract_temp_copy_left_behind :
    extract_bookmarks_from_places_db extractEnvQueryFails dbW = ([], true) := rfl

/-- C4 counterexample: a bookmark-type row whose URL `httpfoo://x` starts
with the characters `http` but not with an HTTP(S) scheme is
nevertheless returned by extraction, because the SQL filter is
`LIKE 'http%'`, not a scheme check. -/
theorem extract_includes_non_http_scheme :
    (extract_bookmarks_from_places_db extractEnvOK dbScheme).1 =
      [("t", "httpfoo://x", some 1, some 10)] ∧
    urlHasHttpScheme "httpfoo://x" = false := by
  constructor
  · decide
  · decide

/-- Completeness of the embedded query: every joined row of bookmark
type whose URL passes the `LIKE 'http%'` filter produces its record. -/
theorem mem_runQuery_of (db : PlacesDB) (b : MozBookmark) (p : MozPlace)
    (hb : b ∈ db.moz_bookmarks) (hp : p ∈ db.moz_places)
    (hfk : b.fk = p.id) (ht : b.type = 1) (hl : likeHttp p.url = true) :
    mkRecord b p ∈ runQuery db := by
  unfold runQuery
  rw [List.mem_flatMap]
  refine ⟨b, hb, ?_⟩
  rw [List.mem_filterMap]
  refine ⟨p, ?_, ?_⟩
  · rw [List.mem_filter]
    exact ⟨hp, by simp [hfk]⟩
  · simp [ht, hl]

/-- Soundness of the embedded query: every record in the output comes
from a joined row of bookmark type passing the `LIKE 'http%'` filter. -/
theorem of_mem_runQuery (db : PlacesDB) (r : BookmarkTuple)
    (hr : r ∈ runQuery db) :
    ∃ b ∈ db.moz_bookmarks, ∃ p ∈ db.moz_places,
      b.fk = p.id ∧ b.type = 1 ∧ likeHttp p.url = true ∧ r = mkRecord b p := by
  unfold runQuery at hr
  rw [List.mem_flatMap] at hr
  obtain ⟨b, hb, hr⟩ := hr
  rw [List.mem_filterMap] at hr
  obtain ⟨p, hp, hpr⟩ := hr
  rw [List.mem_filter] at hp
  obtain ⟨hp, hfk⟩ := hp
  refine ⟨b, hb, p, hp, by simpa using hfk, ?_⟩
  by_cases hq : b.type == 1 && likeHttp p.url
  · rw [if_pos hq] at hpr
    obtain ⟨h1, h2⟩ := by simpa using hq
    exact ⟨h1, h2, by simpa using hpr.symm⟩
  · rw [if_neg hq] at hpr
    exact absurd hpr (by simp)

/-- The length of a `filterMap` by a guarded `some` is the count of the
guard over the mapped list, for any map agreeing with the guard. -/
theorem length_filterMap_ite {α β γ : Type} (q : α → Bool) (f : α → β)
    (g : α → γ) (pred : γ → Bool) (hpred : ∀ a, pred (g a) = q a)
    (l : List α) :
    (l.filterMap (fun a => if q a then some (f a) else none)).length =
      (l.map g).countP pred := by
  induction l with
  | nil => rfl
  | cons a l ih =>
    rw [List.filterMap_cons, List.map_cons, List.countP_cons, hpred]
    cases hq : q a <;> simp [hq, ih]

/-- The output of the embedded query has exactly one record per joined
row passing the type and URL filter. -/
theorem length_runQuery (db : PlacesDB) :
    (runQuery db).length =
      (joinPairs db).countP (fun bp => bp.1.type == 1 && likeHttp bp.2.url) := by
  unfold runQuery joinPairs
  induction db.moz_bookmarks with
  | nil => rfl
  | cons b bs ih =>
    rw [List.flatMap_cons, List.flatMap_cons, List.length_append,
      List.countP_append, ih]
    have h := length_filterMap_ite
      (fun p : MozPlace => b.type == 1 && likeHttp p.url)
      (fun p => mkRecord b p) (fun p => (b, p))
      (fun bp : MozBookmark × MozPlace => bp.1.type == 1 && likeHttp bp.2.url)
      (fun p => rfl) (db.moz_places.filter (fun p => b.fk == p.id))
    rw [h]

/-- C4 amended: under a successful extraction, the output has exactly one
record per joined row (`b.fk = p.id`) of bookmark type whose URL passes
the SQL filter `LIKE 'http%'` — i.e. whose URL begins with the four
characters `http`, ASCII-case-insensitively, which is weaker than
beginning with an HTTP(S) scheme — with matching title (defaulted when
NULL or empty), url, bookmarkId and placeId; all other joined rows
contribute nothing. -/
theorem extract_yields_like_filtered_rows (env : ExtractEnv) (db : PlacesDB)
    (h1 : env.placesExists = true) (h2 : env.copyOk = true)
    (h3 : env.connectOk = true) (h4 : env.queryOk = true) :
    (∀ b ∈ db.moz_bookmarks, ∀ p ∈ db.moz_places,
      b.fk = p.id → b.type = 1 → likeHttp p.url = true →
        mkRecord b p ∈ (extract_bookmarks_from_places_db env db).1) ∧
    (∀ r ∈ (extract_bookmarks_from_places_db env db).1,
      ∃ b ∈ db.moz_bookmarks, ∃ p ∈ db.moz_places,
        b.fk = p.id ∧ b.type = 1 ∧ likeHttp p.url = true ∧ r = mkRecord b p) ∧
    (extract_bookmarks_from_places_db env db).1.length =
      (joinPairs db).countP (fun bp => bp.1.type == 1 && likeHttp bp.2.url) := by
  have hout : (extract_bookmarks_from_places_db env db).1 = runQuery db := by
    simp [extract_bookmarks_from_places_db, h1, h2, h3, h4]
  rw [hout]
  exact ⟨fun b hb p hp hfk ht hl => mem_runQuery_of db b p hb hp hfk ht hl,
    fun r hr => of_mem_runQuery db r hr,
    length_runQuery db⟩

/-- Witness for C4 amended: the single qualifying row of the concrete
store `dbW` yields its record in the extraction output. -/
theorem extract_yields_like_filtered_rows_witness :
    mkRecord b0 p0 ∈ (extract_bookmarks_from_places_db extractEnvOK dbW).1 := by
  have h := extract_yields_like_filtered_rows extractEnvOK dbW rfl rfl rfl rfl
  exact h.1 b0 (by simp [dbW]) p0 (by simp [dbW]) rfl rfl (by decide)

/-- The deletion loop depends only on the `bookmark_id` components of the
request pairs, not on the `place_id` components. -/
theorem deleteLoop_congr (f : Nat → Bool) :
    ∀ (pairs pairs' : List (Option Int × Option Int)),
      pairs.map Prod.fst = pairs'.map Prod.fst →
      ∀ i rows c, deleteLoop f i rows c pairs = deleteLoop f i rows c pairs' := by
  intro pairs
  induction pairs with
  | nil =>
    intro pairs' h i rows c
    cases pairs' with
    | nil => rfl
    | cons a l => simp at h
  | cons a l ih =>
    intro pairs' h i rows c
    cases pairs' with
    | nil => simp at h
    | cons a' l' =>
      rcases a with ⟨bid, pid⟩
      rcases a' with ⟨bid', pid'⟩
      simp only [List.map_cons, List.cons.injEq] at h
      obtain ⟨hb, hl⟩ := h
      simp only [deleteLoop]
      rw [← hb]
      cases bid with
      | none => exact ih l' hl (i + 1) rows c
      | some b =>
        cases hf : f i
        · simp only [Bool.false_eq_true, if_false]
          exact ih l' hl (i + 1) _ _
        · simp only [if_true]
          exact ih l' hl (i + 1) rows c

/-- A row removed by the deletion loop was requested: its `id` occurs
among the `bookmark_id` components of the request pairs. -/
theorem deleteLoop_only_requested (f : Nat → Bool) :
    ∀ (pairs : List (Option Int × Option Int)) (i : Nat)
      (rows : List MozBookmark) (c : Nat) (r : MozBookmark),
      r ∈ rows → r ∉ (deleteLoop f i rows c pairs).1 →
      some r.id ∈ pairs.map Prod.fst := by
  intro pairs
  induction pairs with
  | nil =>
    intro i rows c r hr hnot
    exact absurd hr hnot
  | cons a l ih =>
    intro i rows c r hr hnot
    rcases a with ⟨bid, pid⟩
    cases bid with
    | none =>
      simp only [deleteLoop] at hnot
      exact List.mem_cons_of_mem _ (ih (i + 1) rows c r hr hnot)
    | some b =>
      cases hf : f i
      · by_cases hid : r.id = b
        · rw [List.map_cons]
          exact List.mem_cons.mpr (Or.inl (by rw [hid]))
        · have hr' : r ∈ rows.filter (fun x => x.id != b) := by
            rw [List.mem_filter]
            exact ⟨hr, by simp [hid]⟩
          simp only [deleteLoop, hf, Bool.false_eq_true, if_false] at hnot
          exact List.mem_cons_of_mem _ (ih (i + 1) _ _ r hr' hnot)
      · simp only [deleteLoop, hf, if_true] at hnot
        exact List.mem_cons_of_mem _ (ih (i + 1) rows c r hr hnot)

/-- The deletion loop's counter counts exactly the request pairs with a
present `bookmark_id` whose DELETE does not raise — independently of
the table contents. -/
theorem deleteLoop_count (f : Nat → Bool) :
    ∀ (pairs : List (Option Int × Option Int)) (i : Nat)
      (rows : List MozBookmark) (c : Nat),
      (deleteLoop f i rows c pairs).2 =
        c + (List.enumFrom i pairs).countP (fun p => p.2.1.isSome && !f p.1) := by
  intro pairs
  induction pairs with
  | nil => intro i rows c; simp [deleteLoop]
  | cons a l ih =>
    intro i rows c
    rcases a with ⟨bid, pid⟩
    rw [List.enumFrom]
    rw [List.countP_cons]
    cases bid with
    | none =>
      simp only [deleteLoop]
      rw [ih (i + 1) rows c]
      simp
    | some b =>
      cases hf : f i
      · simp only [deleteLoop, hf, Bool.false_eq_true, if_false]
        rw [ih (i + 1) _ (c + 1)]
        simp [hf]
        omega
      · simp only [deleteLoop, hf, if_true]
        rw [ih (i + 1) rows c]
        simp [hf]

/-- C9: the result of `remove_bookmarks` — return value, final store and
reported count — is unchanged when the `place_id` components of the
request pairs are replaced arbitrarily; the `moz_places` table is never
modified; and every `moz_bookmarks` row that disappears was requested
by its `bookmark_id`. -/
theorem remove_bookmarks_place_id_irrelevant (env : DeleteEnv) (db : PlacesDB)
    (reqs reqs' : List (Option Int × Option Int))
    (h : reqs.map Prod.fst = reqs'.map Prod.fst) :
    (remove_bookmarks env db reqs = remove_bookmarks env db reqs') ∧
    ((remove_bookmarks env db reqs).2.1.moz_places = db.moz_places) ∧
    (∀ r ∈ db.moz_bookmarks,
      r ∉ (remove_bookmarks env db reqs).2.1.moz_bookmarks →
      some r.id ∈ reqs.map Prod.fst) := by
  have hempty : reqs.isEmpty = reqs'.isEmpty := by
    cases reqs <;> cases reqs' <;> simp_all
  have hcomm : transactionCommits env reqs = transactionCommits env reqs' := by
    unfold transactionCommits
    rw [hempty]
  refine ⟨?_, ?_, ?_⟩
  · rcases remove_bookmarks_spec env db reqs with ⟨hc₁, he₁⟩ | ⟨hc₁, he₁⟩ <;>
      rcases remove_bookmarks_spec env db reqs' with ⟨hc₂, he₂⟩ | ⟨hc₂, he₂⟩
    · rw [he₁, he₂]
    · rw [hcomm, hc₂] at hc₁; exact absurd hc₁ (by simp)
    · rw [hcomm, hc₂] at hc₁; exact absurd hc₁ (by simp)
    · rw [he₁, he₂, deleteLoop_congr env.rowRaises reqs reqs' h 0 db.moz_bookmarks 0]
  · rcases remove_bookmarks_spec env db reqs with ⟨_, he⟩ | ⟨_, he⟩ <;> rw [he]
  · intro r hr hnot
    rcases remove_bookmarks_spec env db reqs with ⟨_, he⟩ | ⟨_, he⟩
    · rw [he] at hnot
      exact absurd hr hnot
    · rw [he] at hnot
      exact deleteLoop_only_requested env.rowRaises reqs 0 db.moz_bookmarks 0 r hr hnot

/-- Witness for C9: changing the `place_id` of a concrete request leaves
the whole call result unchanged, and `moz_places` is untouched. -/
theorem remove_bookmarks_place_id_irrelevant_witness :
    (remove_bookmarks delEnvOK dbDel [(some 1, some 10)] =
      remove_bookmarks delEnvOK dbDel [(some 1, some 99)]) ∧
    ((remove_bookmarks delEnvOK dbDel [(some 1, some 10)]).2.1.moz_places =
      dbDel.moz_places) := by
  have h := remove_bookmarks_place_id_irrelevant delEnvOK dbDel
    [(some 1, some 10)] [(some 1, some 99)] rfl
  exact ⟨h.1, h.2.1⟩

/-- C10: when every precondition passes and the transaction commits, the
call returns `True` and reports a count equal to the number of request
pairs with a present `bookmark_id` whose DELETE did not raise — a
formula independent of the store's contents, so a pair naming a
nonexistent row still increments the count. -/
theorem remove_bookmarks_counts_attempted (env : DeleteEnv) (db : PlacesDB)
    (reqs : List (Option Int × Option Int))
    (h1 : reqs.isEmpty = false) (h2 : env.placesExists = true)
    (h3 : is_firefox_running env.proc = false) (h4 : env.backupOk = true)
    (h5 : env.connectOk = true) (h6 : env.beginOk = true)
    (h7 : env.commitOk = true) :
    ((remove_bookmarks env db reqs).1 = true) ∧
    ((remove_bookmarks env db reqs).2.2 =
      some (reqs.enum.countP (fun p => p.2.1.isSome && !env.rowRaises p.1))) := by
  have hc : transactionCommits env reqs = true := by
    unfold transactionCommits
    rw [h1, h2, h3, h4, h5, h6, h7]
    rfl
  rcases remove_bookmarks_spec env db reqs with ⟨hc', _⟩ | ⟨_, he⟩
  · rw [hc] at hc'
    exact absurd hc' (by simp)
  · rw [he]
    refine ⟨rfl, ?_⟩
    rw [deleteLoop_count env.rowRaises reqs 0 db.moz_bookmarks 0]
    simp [List.enum]

/-- Witness for C10: requesting deletion of the nonexistent identifier
999 against the concrete two-row store still reports a count of 1 and
returns `True`. -/
theorem remove_bookmarks_counts_attempted_witness :
    ((remove_bookmarks delEnvOK dbDel [(some 999, some 1)]).1 = true) ∧
    ((remove_bookmarks delEnvOK dbDel [(some 999, some 1)]).2.2 = some 1) := by
  have h := remove_bookmarks_counts_attempted delEnvOK dbDel [(some 999, some 1)]
    rfl rfl rfl rfl rfl rfl rfl
  refine ⟨h.1, ?_⟩
  rw [h.2]
  rfl

/-- Witness for C1: on a concrete call with every step succeeding, the
return value equals the commit condition. -/
theorem remove_bookmarks_true_iff_commit_witness :
    (remove_bookmarks delEnvOK dbDel [(some 1, some 10)]).1 =
      transactionCommits delEnvOK [(some 1, some 10)] :=
  (remove_bookmarks_true_iff_commit delEnvOK dbDel [(some 1, some 10)]).1

/-- Witness for C7: the loop on a concrete two-record list, whose second
record raises during probing, produces the classifier output of the
remaining records in order. -/
theorem validateBookmarks_order_and_no_abort_witness :
    validateBookmarks
        ([(("t", "http://a", some 1, some 10), RecordEnv.net netHead404Get200)] ++
          (("u", "http://b", some 2, some 11),
            RecordEnv.raisesDuring PyExc.otherException) ::
          [(("v", "http://c", some 3, some 12), RecordEnv.net netHead404Get200)]) =
      validateBookmarks
        ([(("t", "http://a", some 1, some 10), RecordEnv.net netHead404Get200)] ++
          [(("v", "http://c", some 3, some 12), RecordEnv.net netHead404Get200)]) :=
  validateBookmarks_order_and_no_abort.2
    [(("t", "http://a", some 1, some 10), RecordEnv.net netHead404Get200)]
    [(("v", "http://c", some 3, some 12), RecordEnv.net netHead404Get200)]
    ("u", "http://b", some 2, some 11) PyExc.otherException

/-- Witness for C8 amended: a concrete empty-URL record between two
probed records contributes nothing at all. -/
theorem emptyUrl_skipped_entirely_witness :
    validateBookmarks
        ([(("t", "http://a", some 1, some 10), RecordEnv.net netHead404Get200)] ++
          (("u", "", some 2, some 11), RecordEnv.net netHead404Get200) ::
          [(("v", "http://c", some 3, some 12), RecordEnv.net netHead404Get200)]) =
      validateBookmarks
        ([(("t", "http://a", some 1, some 10), RecordEnv.net netHead404Get200)] ++
          [(("v", "http://c", some 3, some 12), RecordEnv.net netHead404Get200)]) :=
  emptyUrl_skipped_entirely
    [(("t", "http://a", some 1, some 10), RecordEnv.net netHead404Get200)]
    [(("v", "http://c", some 3, some 12), RecordEnv.net netHead404Get200)]
    "u" (some 2) (some 11) (RecordEnv.net netHead404Get200)
